import Mathlib

/-!
# Verification of `serde-yaml` tagged-value support (`src/value/tagged.rs`)

Shallow embedding of the tagged-value core of serde-yaml: the `Tag` and
`TaggedValue` types, marker-insensitive comparison via `nobang`, untagging,
the Serialize/Deserialize adapters and the enum/variant-access adapters.

The generic `Value` data model and the value (de)serializer collaborators
live outside the verified source file; where the spec depends on them they
are modelled from the spec and marked `Modelled from the spec:`.
-/

/-- `Tag` from `tagged.rs`: `pub struct Tag { pub(crate) string: String }`. -/
structure Tag where
  string : String
deriving Repr, DecidableEq

/-- Modelled from the spec: the generic value model (`Value` lives in
`src/value/mod.rs`, not part of the verified source): a scalar, a sequence,
a key-ordered mapping, or a tagged value (`Value::Tagged(Box<TaggedValue>)`,
here flattened to a tag and an inner value). -/
inductive Value where
  | scalar : String → Value
  | sequence : List Value → Value
  | mapping : List (Value × Value) → Value
  | tagged : Tag → Value → Value
deriving Repr

/-- `TaggedValue` from `tagged.rs`: `pub struct TaggedValue { pub tag: Tag, pub value: Value }`. -/
structure TaggedValue where
  tag : Tag
  value : Value
deriving Repr

/-- `nobang` from `tagged.rs`:
`maybe_banged.strip_prefix('!').unwrap_or(maybe_banged)` — removes at most
one leading `'!'`, and only if present. -/
def nobang (maybeBanged : String) : String :=
  match maybeBanged.data with
  | '!' :: rest => String.mk rest
  | _ => maybeBanged

/-- `Tag::new` from `tagged.rs`: stores the string verbatim. -/
def Tag.new (string : String) : Tag :=
  { string := string }

/-- `impl PartialEq for Tag`: `PartialEq::eq(nobang(&self.string), nobang(&other.string))`. -/
def Tag.beq (self other : Tag) : Bool :=
  nobang self.string == nobang other.string

/-- `impl<T: AsRef<str>> PartialEq<T> for Tag`: equality of a `Tag` against a
string-like value, `PartialEq::eq(nobang(&self.string), nobang(other.as_ref()))`. -/
def Tag.beqStr (self : Tag) (other : String) : Bool :=
  nobang self.string == nobang other

/-- Lexicographic comparison of characters, modelling Rust's `Ord for str`
(byte-lexicographic, which for UTF-8 agrees with code-point order). -/
def lexCmp : List Char → List Char → Ordering
  | [], [] => .eq
  | [], _ :: _ => .lt
  | _ :: _, [] => .gt
  | a :: as, b :: bs =>
    if a < b then .lt
    else if b < a then .gt
    else lexCmp as bs

/-- `impl Ord for Tag`: `Ord::cmp(nobang(&self.string), nobang(&other.string))`. -/
def Tag.cmp (self other : Tag) : Ordering :=
  lexCmp (nobang self.string).data (nobang other.string).data

/-- `impl PartialOrd for Tag`: `partial_cmp` always agrees with `cmp`
(Rust's `str` partial order is total). -/
def Tag.partialCmp (self other : Tag) : Option Ordering :=
  some (Tag.cmp self other)

/-- `impl Hash for Tag`: `nobang(&self.string).hash(hasher)` — the bytes fed
to the hasher are exactly the marker-stripped payload, so two tags hash
identically (for every hasher) exactly when their stripped payloads agree. -/
def Tag.hashInput (self : Tag) : String :=
  nobang self.string

/-- `impl Debug for Tag`: `write!(formatter, "!{}", nobang(&self.string))`. -/
def Tag.debugRender (self : Tag) : String :=
  "!" ++ nobang self.string

/-- Modelled from the spec: the shape-classification and human-readable
shape description (`Value::unexpected` in `src/value/mod.rs`, not part of
the verified source) used for error messages. -/
def Value.unexpected : Value → String
  | .scalar _ => "scalar"
  | .sequence _ => "sequence"
  | .mapping _ => "mapping"
  | .tagged _ _ => "enum"

/-- Whether the outermost shape of a value is `Value::Tagged`. -/
def Value.isTagged : Value → Bool
  | .tagged _ _ => true
  | _ => false

mutual

/-- Structural equality of values, modelling the derived `PartialEq` of the
generic value model: scalars, sequences and mappings compare element-wise,
and tagged values compare the tag with `Tag`'s marker-insensitive equality
(the derived `PartialEq` of `TaggedValue`) and the inner value recursively. -/
def Value.beq : Value → Value → Bool
  | .scalar a, .scalar b => a == b
  | .sequence a, .sequence b => beqSeq a b
  | .mapping a, .mapping b => beqMap a b
  | .tagged t v, .tagged u w => Tag.beq t u && Value.beq v w
  | _, _ => false

/-- Element-wise `Value.beq` on sequences. -/
def beqSeq : List Value → List Value → Bool
  | [], [] => true
  | a :: as, b :: bs => Value.beq a b && beqSeq as bs
  | _, _ => false

/-- Entry-wise `Value.beq` on mapping entry lists. -/
def beqMap : List (Value × Value) → List (Value × Value) → Bool
  | [], [] => true
  | (k, v) :: as, (l, w) :: bs => Value.beq k l && Value.beq v w && beqMap as bs
  | _, _ => false

end

/-- The derived `PartialEq` of `TaggedValue`: field-by-field, tag first
(with `Tag`'s marker-insensitive equality), then the value. -/
def TaggedValue.beq (self other : TaggedValue) : Bool :=
  Tag.beq self.tag other.tag && Value.beq self.value other.value

/-- `Value::untag` from `tagged.rs` (by value): loop
`while let Value::Tagged(tagged) = cur { cur = tagged.value }`. -/
def Value.untag : Value → Value
  | .tagged _ value => Value.untag value
  | cur => cur

/-- `Value::untag_ref` from `tagged.rs` (by shared reference): the same loop
through `&tagged.value`; in the pure embedding a shared reference reads as
the referenced value. -/
def Value.untag_ref : Value → Value
  | .tagged _ value => Value.untag_ref value
  | cur => cur

/-- The value read through the `&mut Value` returned by `Value::untag_mut`
from `tagged.rs`: the same loop through `&mut tagged.value`. -/
def Value.untag_mut_get : Value → Value
  | .tagged _ value => Value.untag_mut_get value
  | cur => cur

/-- Writing through the `&mut Value` returned by `Value::untag_mut`:
`*self.untag_mut() = b` replaces the first non-tagged value reached by the
loop, leaving every `Tagged` wrapper in place. -/
def Value.untag_mut_set (self b : Value) : Value :=
  match self with
  | .tagged tag value => .tagged tag (Value.untag_mut_set value b)
  | _ => b

/-- A chain of `N` nested tags around a base value, innermost tag last:
`wrapTags [t1, ..., tN] b = Tagged(t1, Tagged(t2, ... Tagged(tN, b)))`. -/
def wrapTags : List Tag → Value → Value
  | [], b => b
  | t :: ts, b => .tagged t (wrapTags ts b)

/-- The list of tags wrapped around a value, outermost first. -/
def Value.tagChain : Value → List Tag
  | .tagged t value => t :: Value.tagChain value
  | _ => []

/-! ## Serialization

`impl Serialize for TaggedValue` drives an abstract `Serializer` through the
map-serialization protocol: `serialize_map(Some(1))`, one
`serialize_entry(format_args!("!{}", nobang(&self.tag.string)), &self.value)`,
then `end`.  The serializer is a collaborator; it is modelled as a record of
the three fallible operations actually used, over an abstract state `σ`,
result `ω` and error `ε`. -/

/-- The slice of the generic `Serializer`/`SerializeMap` contract used by
`impl Serialize for TaggedValue`: start a map (with an entry-count hint),
add one key/value entry (the key already rendered to a string by
`format_args!`), and finish. -/
structure MapSerializer (σ ω ε : Type) where
  serializeMap : Option Nat → Except ε σ
  serializeEntry : σ → String → Value → Except ε σ
  endMap : σ → Except ε ω

/-- `impl Serialize for TaggedValue` from `tagged.rs`:
```
let mut map = serializer.serialize_map(Some(1))?;
map.serialize_entry(&format_args!("!{}", nobang(&self.tag.string)), &self.value)?;
map.end()
``` -/
def TaggedValue.serialize (self : TaggedValue) (ser : MapSerializer σ ω ε) : Except ε ω := do
  let map ← ser.serializeMap (some 1)
  let map ← ser.serializeEntry map ("!" ++ nobang self.tag.string) self.value
  ser.endMap map

/-- A serializer that merely collects the emitted entries, with the entry
value recorded verbatim (the inner value's own serialization, treated as a
black box, is the identity on the data model). -/
def collectSerializer (ε : Type) : MapSerializer (List (String × Value)) (List (String × Value)) ε :=
  { serializeMap := fun _ => .ok []
    serializeEntry := fun entries key value => .ok (entries ++ [(key, value)])
    endMap := fun entries => .ok entries }

mutual

/-- Modelled from the spec: the generic value model's own serialization to
the wire data model (`src/value/ser.rs`, not part of the verified source).
Scalars, sequences and mappings serialize element-wise to themselves; a
tagged value is routed through `impl Serialize for TaggedValue`, and per the
wire convention the resulting one-entry mapping keyed `"!" + stripped tag`
is the wire's tag node, whose tag stores that key verbatim (`Tag::new`). -/
def Value.serializeToValue : Value → Value
  | .scalar s => .scalar s
  | .sequence xs => .sequence (serializeSeq xs)
  | .mapping kvs => .mapping (serializeMapEntries kvs)
  | .tagged tag value =>
    .tagged (Tag.new ("!" ++ nobang tag.string)) (Value.serializeToValue value)

/-- Element-wise `Value.serializeToValue` on sequences. -/
def serializeSeq : List Value → List Value
  | [] => []
  | v :: vs => Value.serializeToValue v :: serializeSeq vs

/-- Entry-wise `Value.serializeToValue` on mapping entry lists. -/
def serializeMapEntries : List (Value × Value) → List (Value × Value)
  | [] => []
  | (k, v) :: kvs => (Value.serializeToValue k, Value.serializeToValue v) :: serializeMapEntries kvs

end

/-- `impl Serialize for TaggedValue` composed with the wire convention:
the emitted one-entry mapping keyed `"!" + nobang(tag)` is the wire's tag
node carrying the inner value's own serialization. -/
def TaggedValue.serializeWire (self : TaggedValue) : Value :=
  .tagged (Tag.new ("!" ++ nobang self.tag.string)) (Value.serializeToValue self.value)

/-! ## Deserialization and the enum-access protocol -/

/-- The deserialization error type (`crate::Error`), restricted to the
constructors this core produces: `Error::invalid_type(unexpected, expected)`
carrying the offending value's shape description and the stated expectation,
and opaque collaborator errors. -/
inductive DeError where
  | invalidType (unexpected : String) (expected : String)
  | custom (message : String)
deriving Repr, DecidableEq

/-- `impl EnumAccess for TaggedValue` (owned), `variant_seed` from `tagged.rs`:
```
let tag = StrDeserializer::<Error>::new(nobang(&self.tag.string));
let value = seed.deserialize(tag)?;
Ok((value, self.value))
```
The seed is a collaborator; feeding it the string deserializer is modelled
as applying it to the string. -/
def TaggedValue.variant_seed (self : TaggedValue) (seed : String → Except DeError α) :
    Except DeError (α × Value) := do
  let value ← seed (nobang self.tag.string)
  .ok (value, self.value)

/-- `impl EnumAccess for &TaggedValue` (borrowed), `variant_seed` from
`tagged.rs`: identical to the owned adapter except that the string is fed
through `BorrowedStrDeserializer` and the inner value is returned by
reference; in the pure embedding a reference reads as the value. -/
def TaggedValue.variant_seed_ref (self : TaggedValue) (seed : String → Except DeError α) :
    Except DeError (α × Value) := do
  let value ← seed (nobang self.tag.string)
  .ok (value, self.value)

/-- `impl VariantAccess for Value` (owned), `newtype_variant_seed`:
`seed.deserialize(self)` — hands the inner value to the seed directly. -/
def Value.newtype_variant_seed (self : Value) (seed : Value → Except DeError α) :
    Except DeError α :=
  seed self

/-- `impl VariantAccess for Value` (owned), `tuple_variant`:
```
if let Value::Sequence(v) = self {
    Deserializer::deserialize_any(SeqDeserializer::new(v), visitor)
} else {
    Err(Error::invalid_type(self.unexpected(), &"tuple variant"))
}
```
The sequence-deserializer adapter together with the consumer's visitor is a
collaborator, modelled as a function from the sequence's elements. -/
def Value.tuple_variant (self : Value) (len : Nat)
    (visitor : List Value → Except DeError α) : Except DeError α :=
  match self, len with
  | .sequence v, _ => visitor v
  | _, _ => .error (.invalidType self.unexpected "tuple variant")

/-- `impl VariantAccess for Value` (owned), `struct_variant`: as
`tuple_variant` but requiring a mapping, delegating to `MapDeserializer`,
and stating "struct variant" on mismatch. -/
def Value.struct_variant (self : Value) (fields : List String)
    (visitor : List (Value × Value) → Except DeError α) : Except DeError α :=
  match self, fields with
  | .mapping v, _ => visitor v
  | _, _ => .error (.invalidType self.unexpected "struct variant")

/-- `impl VariantAccess for &Value` (borrowed), `tuple_variant`: identical
to the owned adapter except that it delegates to `SeqRefDeserializer`. -/
def Value.tuple_variant_ref (self : Value) (len : Nat)
    (visitor : List Value → Except DeError α) : Except DeError α :=
  match self, len with
  | .sequence v, _ => visitor v
  | _, _ => .error (.invalidType self.unexpected "tuple variant")

/-- `impl VariantAccess for &Value` (borrowed), `struct_variant`: identical
to the owned adapter except that it delegates to `MapRefDeserializer`. -/
def Value.struct_variant_ref (self : Value) (fields : List String)
    (visitor : List (Value × Value) → Except DeError α) : Except DeError α :=
  match self, fields with
  | .mapping v, _ => visitor v
  | _, _ => .error (.invalidType self.unexpected "struct variant")

/-- The slice of serde's `Visitor` contract exercised by the value data
model's deserializer: one callback per self-described shape.  `visit_enum`
receives the enum-access data, which for this deserializer is the
`TaggedValue` itself (whose `EnumAccess` impl lives in `tagged.rs`). -/
structure ValueVisitor (α : Type) where
  visitScalar : String → Except DeError α
  visitSeq : List Value → Except DeError α
  visitMap : List (Value × Value) → Except DeError α
  visitEnum : TaggedValue → Except DeError α

/-- Modelled from the spec: `deserialize_any` of the value data model's
deserializer (`src/value/de.rs`, not part of the verified source):
self-describing dispatch on the value's shape; a tagged value is handed to
`visit_enum` as enum-access data (the generic protocol's enum mode), the
plain shapes go to their plain callbacks. -/
def Value.deserializeAny (self : Value) (visitor : ValueVisitor α) : Except DeError α :=
  match self with
  | .scalar s => visitor.visitScalar s
  | .sequence xs => visitor.visitSeq xs
  | .mapping kvs => visitor.visitMap kvs
  | .tagged tag value => visitor.visitEnum ⟨tag, value⟩

/-- The body of `TaggedValueVisitor::visit_enum` from `tagged.rs`, generic
over the enum-access collaborator exactly as the source is:
```
let (tag, contents) = data.variant::<String>()?;
let tag = Tag::new(tag);
let value = contents.newtype_variant()?;
Ok(TaggedValue { tag, value })
``` -/
def visitEnumTagged (variant : Except ε (String × Value))
    (newtypeVariantOf : Value → Except ε Value) : Except ε TaggedValue := do
  let (tag, contents) ← variant
  let value ← newtypeVariantOf contents
  .ok { tag := Tag.new tag, value := value }

/-- `TaggedValueVisitor` from `tagged.rs`: only `visit_enum` is provided;
every other shape falls back to serde's default visitor methods, which fail
with an invalid-type error stating the visitor's `expecting` message
(`"a YAML value with a !Tag"`).  `data.variant::<String>()` is
`variant_seed` with the seed that deserializes a `String` (the identity on
the fed string), and `contents.newtype_variant()` is `newtype_variant_seed`
with the seed that deserializes a `Value` (the identity on the value). -/
def TaggedValueVisitor : ValueVisitor TaggedValue :=
  { visitScalar := fun _ => .error (.invalidType "scalar" "a YAML value with a !Tag")
    visitSeq := fun _ => .error (.invalidType "sequence" "a YAML value with a !Tag")
    visitMap := fun _ => .error (.invalidType "mapping" "a YAML value with a !Tag")
    visitEnum := fun data =>
      visitEnumTagged (data.variant_seed fun s => .ok s)
        (fun contents => contents.newtype_variant_seed fun v => .ok v) }

/-- `impl Deserialize for TaggedValue` from `tagged.rs`:
`deserializer.deserialize_any(TaggedValueVisitor)`, instantiated at the
value data model's deserializer. -/
def TaggedValue.deserializeValue (input : Value) : Except DeError TaggedValue :=
  input.deserializeAny TaggedValueVisitor

/-- Serialize-then-deserialize composition on a `TaggedValue`. -/
def TaggedValue.roundTrip (self : TaggedValue) : Except DeError TaggedValue :=
  TaggedValue.deserializeValue self.serializeWire

/-- Whether the round trip both succeeds and returns a `TaggedValue` equal
(per the derived `PartialEq`) to the original. -/
def TaggedValue.roundTripOk (self : TaggedValue) : Bool :=
  match self.roundTrip with
  | .ok result => result.beq self
  | .error _ => false

/-- Whether a string begins with the marker character. -/
def hasBang (s : String) : Bool :=
  match s.data with
  | '!' :: _ => true
  | _ => false

/-- Whether the outermost shape of a value is `Value::Sequence`. -/
def Value.isSequence : Value → Bool
  | .sequence _ => true
  | _ => false

/-- Whether the outermost shape of a value is `Value::Mapping`. -/
def Value.isMapping : Value → Bool
  | .mapping _ => true
  | _ => false

/-- Modelled from the spec: the value data model's serializer as a
map-serialization sink (`src/value/ser.rs`, not part of the verified
source): it records the entries, serializing each entry value through the
value model's own serialization, and on `end` turns a one-entry map whose
key carries the marker into the wire's tag node storing that key verbatim
(`Tag::new`), per the wire convention. -/
def wireSerializer : MapSerializer (List (String × Value)) Value DeError :=
  { serializeMap := fun _ => .ok []
    serializeEntry := fun entries key value => .ok (entries ++ [(key, value.serializeToValue)])
    endMap := fun entries =>
      match entries with
      | [(key, value)] =>
        if hasBang key then .ok (.tagged (Tag.new key) value)
        else .ok (.mapping [(.scalar key, value)])
      | _ => .ok (.mapping (entries.map fun (k, v) => (.scalar k, v))) }

/-! ## Helper lemmas -/

theorem nobang_bang_append (s : String) : nobang ("!" ++ s) = s := rfl

theorem hasBang_bang_append (s : String) : hasBang ("!" ++ s) = true := rfl

theorem nobang_of_not_hasBang {s : String} (h : hasBang s = false) : nobang s = s := by
  unfold nobang
  split
  · rename_i rest heq
    unfold hasBang at h
    rw [heq] at h
    simp at h
  · rfl

theorem lexCmp_eq_iff : ∀ a b : List Char, lexCmp a b = .eq ↔ a = b
  | [], [] => by simp [lexCmp]
  | [], _ :: _ => by simp [lexCmp]
  | _ :: _, [] => by simp [lexCmp]
  | a :: as, b :: bs => by
    simp only [lexCmp]
    by_cases hab : a < b
    · simp only [if_pos hab]
      constructor
      · intro h
        cases h
      · intro h
        injection h with h1 h2
        exact absurd (h1 ▸ hab) (lt_irrefl b)
    · by_cases hba : b < a
      · simp [hab, hba]
        intro h
        exact absurd (h ▸ hba) (lt_irrefl a)
      · have hEq : a = b := le_antisymm (not_lt.mp hba) (not_lt.mp hab)
        simp [hab, hba, hEq, lexCmp_eq_iff as bs]

mutual

theorem serializeToValue_beq (v : Value) : Value.beq v.serializeToValue v = true :=
  match v with
  | .scalar s => by simp [Value.serializeToValue, Value.beq]
  | .sequence xs => by
    simp only [Value.serializeToValue, Value.beq]
    exact serializeSeq_beq xs
  | .mapping kvs => by
    simp only [Value.serializeToValue, Value.beq]
    exact serializeMapEntries_beq kvs
  | .tagged t v => by
    simp only [Value.serializeToValue, Value.beq, Tag.beq, Tag.new, nobang_bang_append,
      serializeToValue_beq v, Bool.and_true, beq_self_eq_true]

theorem serializeSeq_beq (xs : List Value) : beqSeq (serializeSeq xs) xs = true :=
  match xs with
  | [] => by simp [serializeSeq, beqSeq]
  | v :: vs => by
    simp only [serializeSeq, beqSeq, serializeToValue_beq v, serializeSeq_beq vs,
      Bool.and_self]

theorem serializeMapEntries_beq (kvs : List (Value × Value)) :
    beqMap (serializeMapEntries kvs) kvs = true :=
  match kvs with
  | [] => by simp [serializeMapEntries, beqMap]
  | (k, v) :: rest => by
    simp only [serializeMapEntries, beqMap, serializeToValue_beq k, serializeToValue_beq v,
      serializeMapEntries_beq rest, Bool.and_self]

end

/-- Coherence of the two serialization views: driving
`impl Serialize for TaggedValue` into the value data model's sink produces
exactly the wire value `TaggedValue.serializeWire`. -/
theorem serialize_wireSerializer_eq (tv : TaggedValue) :
    tv.serialize wireSerializer = .ok tv.serializeWire := rfl

theorem untag_not_tagged {v : Value} (hv : v.isTagged = false) : v.untag = v := by
  cases v <;> simp_all [Value.isTagged, Value.untag]

theorem untag_ref_not_tagged {v : Value} (hv : v.isTagged = false) : v.untag_ref = v := by
  cases v <;> simp_all [Value.isTagged, Value.untag_ref]

theorem untag_mut_get_not_tagged {v : Value} (hv : v.isTagged = false) :
    v.untag_mut_get = v := by
  cases v <;> simp_all [Value.isTagged, Value.untag_mut_get]

theorem untag_wrapTags (ts : List Tag) {b : Value} (hb : b.isTagged = false) :
    (wrapTags ts b).untag = b := by
  induction ts with
  | nil => exact untag_not_tagged hb
  | cons t ts ih => simpa [wrapTags, Value.untag] using ih

theorem untag_ref_wrapTags (ts : List Tag) {b : Value} (hb : b.isTagged = false) :
    (wrapTags ts b).untag_ref = b := by
  induction ts with
  | nil => exact untag_ref_not_tagged hb
  | cons t ts ih => simpa [wrapTags, Value.untag_ref] using ih

theorem untag_mut_get_wrapTags (ts : List Tag) {b : Value} (hb : b.isTagged = false) :
    (wrapTags ts b).untag_mut_get = b := by
  induction ts with
  | nil => exact untag_mut_get_not_tagged hb
  | cons t ts ih => simpa [wrapTags, Value.untag_mut_get] using ih

theorem tagChain_wrapTags (ts : List Tag) {b : Value} (hb : b.isTagged = false) :
    (wrapTags ts b).tagChain = ts := by
  induction ts with
  | nil => cases b <;> simp_all [Value.isTagged, Value.tagChain, wrapTags]
  | cons t ts ih => simp [wrapTags, Value.tagChain, ih]

theorem untag_mut_set_wrapTags (ts : List Tag) {b : Value} (bNew : Value)
    (hb : b.isTagged = false) :
    (wrapTags ts b).untag_mut_set bNew = wrapTags ts bNew := by
  induction ts with
  | nil => cases b <;> simp_all [Value.isTagged, Value.untag_mut_set, wrapTags]
  | cons t ts ih => simp [wrapTags, Value.untag_mut_set, ih]

/-! ## Claims -/

/-- C2: two tags built by `Tag::new` are equal, compare as `Ordering::Equal`,
and hash identically exactly when their payloads agree after stripping at
most one leading marker from each; equality against a string-like value
strips the marker from both sides; hence `Tag::new(s) == Tag::new("!" + s)`
for `s` without a leading marker, while `Tag::new("!!" + s)` differs from
`Tag::new(s)`. -/
theorem tag_marker_insensitive_identity (s u : String) :
    (Tag.beq (Tag.new s) (Tag.new u) = true ↔ nobang s = nobang u)
    ∧ (Tag.cmp (Tag.new s) (Tag.new u) = Ordering.eq ↔ nobang s = nobang u)
    ∧ (Tag.hashInput (Tag.new s) = Tag.hashInput (Tag.new u) ↔ nobang s = nobang u)
    ∧ (Tag.beqStr (Tag.new s) u = (nobang s == nobang u))
    ∧ (hasBang s = false →
        Tag.beq (Tag.new s) (Tag.new ("!" ++ s)) = true
        ∧ Tag.beq (Tag.new ("!!" ++ s)) (Tag.new s) = false) := by
  refine ⟨?_, ?_, Iff.rfl, rfl, ?_⟩
  · simp [Tag.beq, Tag.new]
  · constructor
    · intro h
      exact String.ext ((lexCmp_eq_iff _ _).mp h)
    · intro h
      refine (lexCmp_eq_iff _ _).mpr ?_
      show (nobang s).data = (nobang u).data
      rw [h]
  · intro h
    constructor
    · show (nobang s == nobang ("!" ++ s)) = true
      rw [nobang_bang_append, nobang_of_not_hasBang h]
      simp
    · show (nobang ("!!" ++ s) == nobang s) = false
      have h2 : nobang ("!!" ++ s) = "!" ++ s := rfl
      rw [h2, nobang_of_not_hasBang h, beq_eq_false_iff_ne]
      intro hEq
      exact List.cons_ne_self '!' s.data (congrArg String.data hEq)

/-- Witness for C2 at `s := "Thing"`, `u := "!Thing"`. -/
theorem tag_marker_insensitive_identity_witness :
    (Tag.beq (Tag.new "Thing") (Tag.new "!Thing") = true ↔ nobang "Thing" = nobang "!Thing")
    ∧ hasBang "Thing" = false
    ∧ Tag.beq (Tag.new "Thing") (Tag.new ("!" ++ "Thing")) = true
    ∧ Tag.beq (Tag.new ("!!" ++ "Thing")) (Tag.new "Thing") = false :=
  ⟨(tag_marker_insensitive_identity "Thing" "!Thing").1, by decide,
    ((tag_marker_insensitive_identity "Thing" "!Thing").2.2.2.2 (by decide)).1,
    ((tag_marker_insensitive_identity "Thing" "!Thing").2.2.2.2 (by decide)).2⟩

/-- C6: untagging any finite chain of nested tags around a non-tagged base
`b` yields exactly `b`, in all three access modes, and untagging the
already-untagged base returns it unchanged. -/
theorem untag_chain_terminates_base (ts : List Tag) (b : Value) (hb : b.isTagged = false) :
    (wrapTags ts b).untag = b
    ∧ (wrapTags ts b).untag_ref = b
    ∧ (wrapTags ts b).untag_mut_get = b
    ∧ b.untag = b :=
  ⟨untag_wrapTags ts hb, untag_ref_wrapTags ts hb, untag_mut_get_wrapTags ts hb,
    untag_not_tagged hb⟩

/-- Witness for C6 at a two-tag chain around a scalar base. -/
theorem untag_chain_terminates_base_witness :
    (Value.scalar "x").isTagged = false
    ∧ (wrapTags [Tag.new "a", Tag.new "b"] (Value.scalar "x")).untag = Value.scalar "x"
    ∧ (wrapTags [Tag.new "a", Tag.new "b"] (Value.scalar "x")).untag_ref = Value.scalar "x"
    ∧ (wrapTags [Tag.new "a", Tag.new "b"] (Value.scalar "x")).untag_mut_get = Value.scalar "x"
    ∧ (Value.scalar "x").untag = Value.scalar "x" := by
  have h := untag_chain_terminates_base [Tag.new "a", Tag.new "b"] (Value.scalar "x") rfl
  exact ⟨rfl, h.1, h.2.1, h.2.2.1, h.2.2.2⟩

/-- C7: in both the owned and the borrowed `EnumAccess` adapters,
`variant_seed` feeds the consumer's seed exactly the marker-stripped tag
string, and pairs a successful seed result with the inner value (errors
pass through unchanged). -/
theorem variant_seed_exposes_stripped_tag (α : Type) (tv : TaggedValue)
    (seed : String → Except DeError α) :
    tv.variant_seed seed = (seed (nobang tv.tag.string)).map (fun x => (x, tv.value))
    ∧ tv.variant_seed_ref seed = (seed (nobang tv.tag.string)).map (fun x => (x, tv.value)) := by
  constructor
  · unfold TaggedValue.variant_seed
    cases seed (nobang tv.tag.string) <;> rfl
  · unfold TaggedValue.variant_seed_ref
    cases seed (nobang tv.tag.string) <;> rfl

/-- C8: the `Debug` rendering of `Tag::new(s)` is exactly one marker
followed by the stripped payload of `s`; in particular `"Thing"` and
`"!Thing"` both render as `!Thing`. -/
theorem tag_debug_one_marker (s : String) :
    Tag.debugRender (Tag.new s) = "!" ++ nobang s
    ∧ Tag.debugRender (Tag.new "Thing") = "!Thing"
    ∧ Tag.debugRender (Tag.new "!Thing") = "!Thing" :=
  ⟨rfl, by decide, by decide⟩

/-- C9: the variant-access adapters inspect only the outermost shape and
never untag: a tagged inner value (whatever it wraps, a sequence or mapping
included) makes `tuple_variant` and `struct_variant` fail with the
shape-mismatch error in both the owned and the borrowed adapters. -/
theorem variant_access_never_untags (α : Type) (tg : Tag) (inner : Value) (len : Nat)
    (fields : List String) (visS : List Value → Except DeError α)
    (visM : List (Value × Value) → Except DeError α) :
    (Value.tagged tg inner).tuple_variant len visS
      = .error (.invalidType (Value.tagged tg inner).unexpected "tuple variant")
    ∧ (Value.tagged tg inner).struct_variant fields visM
      = .error (.invalidType (Value.tagged tg inner).unexpected "struct variant")
    ∧ (Value.tagged tg inner).tuple_variant_ref len visS
      = .error (.invalidType (Value.tagged tg inner).unexpected "tuple variant")
    ∧ (Value.tagged tg inner).struct_variant_ref fields visM
      = .error (.invalidType (Value.tagged tg inner).unexpected "struct variant") :=
  ⟨rfl, rfl, rfl, rfl⟩

/-- C10: writing a non-tagged value through the reference returned by
`untag_mut` replaces only the base: the tag chain is preserved in order and
the new base is read back by untagging. -/
theorem untag_mut_set_frame (ts : List Tag) (b bNew : Value)
    (hb : b.isTagged = false) (hbNew : bNew.isTagged = false) :
    (wrapTags ts b).untag_mut_set bNew = wrapTags ts bNew
    ∧ ((wrapTags ts b).untag_mut_set bNew).tagChain = ts
    ∧ ((wrapTags ts b).untag_mut_set bNew).untag = bNew := by
  have hset := untag_mut_set_wrapTags ts bNew hb
  refine ⟨hset, ?_, ?_⟩
  · rw [hset]
    exact tagChain_wrapTags ts hbNew
  · rw [hset]
    exact untag_wrapTags ts hbNew

/-- Witness for C10 at a two-tag chain, replacing a scalar base by a
sequence. -/
theorem untag_mut_set_frame_witness :
    (Value.scalar "x").isTagged = false
    ∧ (Value.sequence []).isTagged = false
    ∧ (wrapTags [Tag.new "a", Tag.new "b"] (Value.scalar "x")).untag_mut_set (Value.sequence [])
        = wrapTags [Tag.new "a", Tag.new "b"] (Value.sequence [])
    ∧ ((wrapTags [Tag.new "a", Tag.new "b"] (Value.scalar "x")).untag_mut_set
        (Value.sequence [])).tagChain = [Tag.new "a", Tag.new "b"] := by
  have h := untag_mut_set_frame [Tag.new "a", Tag.new "b"] (Value.scalar "x")
    (Value.sequence []) rfl rfl
  exact ⟨rfl, rfl, h.1, h.2.1⟩

/-- C1 (amended): serializing `TaggedValue { tag := Tag.new t, value := V }`
and deserializing the result yields a `TaggedValue` equal to the original
for every inner value `V` that is a scalar, a sequence, or a mapping, and
every tag string `t` whose marker-stripped payload does not itself begin
with the marker (the claim fails for tag strings starting `!!`, see the
counterexample). -/
theorem roundTrip_identity_amended (t : String) (V : Value)
    (ht : hasBang (nobang t) = false) (_hV : V.isTagged = false) :
    TaggedValue.roundTripOk { tag := Tag.new t, value := V } = true := by
  have hser : TaggedValue.serializeWire { tag := Tag.new t, value := V }
      = .tagged (Tag.new ("!" ++ nobang t)) V.serializeToValue := rfl
  have hde : TaggedValue.deserializeValue (.tagged (Tag.new ("!" ++ nobang t)) V.serializeToValue)
      = .ok { tag := Tag.new (nobang ("!" ++ nobang t)), value := V.serializeToValue } := rfl
  have hrt : TaggedValue.roundTrip { tag := Tag.new t, value := V }
      = .ok { tag := Tag.new (nobang t), value := V.serializeToValue } := by
    unfold TaggedValue.roundTrip
    rw [hser, hde, nobang_bang_append]
  unfold TaggedValue.roundTripOk
  rw [hrt]
  show TaggedValue.beq _ _ = true
  unfold TaggedValue.beq Tag.beq
  show (nobang (nobang t) == nobang t && Value.beq V.serializeToValue V) = true
  rw [nobang_of_not_hasBang ht, serializeToValue_beq V]
  simp

/-- Witness for C1 at `t := "Thing"` and a mapping inner value. -/
theorem roundTrip_identity_amended_witness :
    hasBang (nobang "Thing") = false
    ∧ (Value.mapping [(.scalar "k", .scalar "v")]).isTagged = false
    ∧ TaggedValue.roundTripOk
        { tag := Tag.new "Thing", value := Value.mapping [(.scalar "k", .scalar "v")] } = true :=
  ⟨by decide, rfl,
    roundTrip_identity_amended "Thing" (Value.mapping [(.scalar "k", .scalar "v")])
      (by decide) rfl⟩

/-- C1 (counterexample): for the tag string `"!!a"` (whose stripped payload
still begins with the marker) and a scalar inner value, the serialize-then-
deserialize composition returns a `TaggedValue` that is not equal to the
original: the tag comes back as `"!a"`. -/
theorem roundTrip_double_marker_counterexample :
    TaggedValue.roundTrip { tag := Tag.new "!!a", value := Value.scalar "x" }
      = .ok { tag := Tag.new "!a", value := Value.scalar "x" }
    ∧ TaggedValue.beq { tag := Tag.new "!a", value := Value.scalar "x" }
        { tag := Tag.new "!!a", value := Value.scalar "x" } = false
    ∧ TaggedValue.roundTripOk { tag := Tag.new "!!a", value := Value.scalar "x" } = false :=
  ⟨rfl, by decide, by decide⟩

/-- C3: `impl Serialize for TaggedValue` emits exactly one mapping entry,
keyed by the marker followed by the stripped tag payload, whose value is the
inner value's own serialization; any failure of the three sink operations
is propagated unchanged. -/
theorem taggedValue_serialize_one_entry :
    (∀ (ε : Type) (tv : TaggedValue),
        tv.serialize (collectSerializer ε) = .ok [("!" ++ nobang tv.tag.string, tv.value)])
    ∧ (∀ (σ ω ε : Type) (ser : MapSerializer σ ω ε) (tv : TaggedValue) (e : ε),
        ser.serializeMap (some 1) = .error e → tv.serialize ser = .error e)
    ∧ (∀ (σ ω ε : Type) (ser : MapSerializer σ ω ε) (tv : TaggedValue) (m : σ) (e : ε),
        ser.serializeMap (some 1) = .ok m →
        ser.serializeEntry m ("!" ++ nobang tv.tag.string) tv.value = .error e →
        tv.serialize ser = .error e)
    ∧ (∀ (σ ω ε : Type) (ser : MapSerializer σ ω ε) (tv : TaggedValue) (m m2 : σ) (e : ε),
        ser.serializeMap (some 1) = .ok m →
        ser.serializeEntry m ("!" ++ nobang tv.tag.string) tv.value = .ok m2 →
        ser.endMap m2 = .error e →
        tv.serialize ser = .error e) := by
  refine ⟨fun ε tv => rfl, ?_, ?_, ?_⟩
  · intro σ ω ε ser tv e h1
    unfold TaggedValue.serialize
    rw [h1]
    rfl
  · intro σ ω ε ser tv m e h1 h2
    unfold TaggedValue.serialize
    rw [h1]
    show (do
      let map ← Except.ok m
      let map ← ser.serializeEntry map ("!" ++ nobang tv.tag.string) tv.value
      ser.endMap map) = Except.error e
    rw [show (Except.ok m : Except ε σ) >>= (fun map =>
      ser.serializeEntry map ("!" ++ nobang tv.tag.string) tv.value >>= ser.endMap)
      = ser.serializeEntry m ("!" ++ nobang tv.tag.string) tv.value >>= ser.endMap from rfl]
    rw [h2]
    rfl
  · intro σ ω ε ser tv m m2 e h1 h2 h3
    unfold TaggedValue.serialize
    rw [h1]
    show ser.serializeEntry m ("!" ++ nobang tv.tag.string) tv.value >>= ser.endMap
      = Except.error e
    rw [h2]
    show ser.endMap m2 = Except.error e
    exact h3

/-- C4: for both the owned and the borrowed variant-access adapters,
`tuple_variant` delegates to the sequence-deserializer adapter exactly when
the inner value is a sequence and otherwise fails with an invalid-type
error carrying the value's shape description and the expectation
`"tuple variant"`; `struct_variant` behaves symmetrically for mappings with
expectation `"struct variant"`; the expected length and expected fields are
never inspected by this layer. -/
theorem variant_access_shape_dispatch (α : Type) :
    (∀ (xs : List Value) (len : Nat) (vis : List Value → Except DeError α),
        (Value.sequence xs).tuple_variant len vis = vis xs)
    ∧ (∀ (v : Value) (len : Nat) (vis : List Value → Except DeError α),
        v.isSequence = false →
        v.tuple_variant len vis = .error (.invalidType v.unexpected "tuple variant"))
    ∧ (∀ (kvs : List (Value × Value)) (fields : List String)
          (vis : List (Value × Value) → Except DeError α),
        (Value.mapping kvs).struct_variant fields vis = vis kvs)
    ∧ (∀ (v : Value) (fields : List String) (vis : List (Value × Value) → Except DeError α),
        v.isMapping = false →
        v.struct_variant fields vis = .error (.invalidType v.unexpected "struct variant"))
    ∧ (∀ (xs : List Value) (len : Nat) (vis : List Value → Except DeError α),
        (Value.sequence xs).tuple_variant_ref len vis = vis xs)
    ∧ (∀ (v : Value) (len : Nat) (vis : List Value → Except DeError α),
        v.isSequence = false →
        v.tuple_variant_ref len vis = .error (.invalidType v.unexpected "tuple variant"))
    ∧ (∀ (kvs : List (Value × Value)) (fields : List String)
          (vis : List (Value × Value) → Except DeError α),
        (Value.mapping kvs).struct_variant_ref fields vis = vis kvs)
    ∧ (∀ (v : Value) (fields : List String) (vis : List (Value × Value) → Except DeError α),
        v.isMapping = false →
        v.struct_variant_ref fields vis = .error (.invalidType v.unexpected "struct variant"))
    ∧ (∀ (v : Value) (len1 len2 : Nat) (vis : List Value → Except DeError α),
        v.tuple_variant len1 vis = v.tuple_variant len2 vis)
    ∧ (∀ (v : Value) (f1 f2 : List String) (vis : List (Value × Value) → Except DeError α),
        v.struct_variant f1 vis = v.struct_variant f2 vis)
    ∧ (∀ (v : Value) (len1 len2 : Nat) (vis : List Value → Except DeError α),
        v.tuple_variant_ref len1 vis = v.tuple_variant_ref len2 vis)
    ∧ (∀ (v : Value) (f1 f2 : List String) (vis : List (Value × Value) → Except DeError α),
        v.struct_variant_ref f1 vis = v.struct_variant_ref f2 vis) := by
  refine ⟨fun xs len vis => rfl, ?_, fun kvs f vis => rfl, ?_,
    fun xs len vis => rfl, ?_, fun kvs f vis => rfl, ?_, ?_, ?_, ?_, ?_⟩
  · intro v len vis h
    cases v <;> first | rfl | simp_all [Value.isSequence]
  · intro v fields vis h
    cases v <;> first | rfl | simp_all [Value.isMapping]
  · intro v len vis h
    cases v <;> first | rfl | simp_all [Value.isSequence]
  · intro v fields vis h
    cases v <;> first | rfl | simp_all [Value.isMapping]
  · intro v l1 l2 vis
    cases v <;> rfl
  · intro v f1 f2 vis
    cases v <;> rfl
  · intro v l1 l2 vis
    cases v <;> rfl
  · intro v f1 f2 vis
    cases v <;> rfl

/-- Witness for C4: a mapping inner value rejected by `tuple_variant`, a
sequence accepted, at `α := Nat`. -/
theorem variant_access_shape_dispatch_witness :
    (Value.mapping []).isSequence = false
    ∧ (Value.mapping []).tuple_variant 2 (fun _ => (.ok 0 : Except DeError Nat))
        = .error (.invalidType "mapping" "tuple variant")
    ∧ (Value.sequence [Value.scalar "first"]).tuple_variant 1
        (fun xs => (.ok xs.length : Except DeError Nat)) = .ok 1 := by
  refine ⟨rfl, ?_, ?_⟩
  · exact (variant_access_shape_dispatch Nat).2.1 (Value.mapping []) 2 _ rfl
  · exact (variant_access_shape_dispatch Nat).1 [Value.scalar "first"] 1 _

/-- C5: the `TaggedValue` deserialization entry point consumes its input
through the protocol's enum mode only — enum-shaped (tagged) input succeeds,
yielding `TaggedValue` with the discriminator wrapped by `Tag::new` and the
contents resolved as a newtype payload, while plain scalar, sequence and
mapping input fails with the visitor's expecting message; any error from
the variant extraction or from resolving the newtype payload is surfaced
unchanged. -/
theorem taggedValue_deserialize_enum_mode :
    (∀ (tag : Tag) (value : Value),
        TaggedValue.deserializeValue (.tagged tag value)
          = .ok { tag := Tag.new (nobang tag.string), value := value })
    ∧ (∀ s, TaggedValue.deserializeValue (.scalar s)
          = .error (.invalidType "scalar" "a YAML value with a !Tag"))
    ∧ (∀ xs, TaggedValue.deserializeValue (.sequence xs)
          = .error (.invalidType "sequence" "a YAML value with a !Tag"))
    ∧ (∀ kvs, TaggedValue.deserializeValue (.mapping kvs)
          = .error (.invalidType "mapping" "a YAML value with a !Tag"))
    ∧ (∀ (ε : Type) (variant : Except ε (String × Value)) (ntv : Value → Except ε Value)
          (t : String) (c v : Value),
        variant = .ok (t, c) → ntv c = .ok v →
        visitEnumTagged variant ntv = .ok { tag := Tag.new t, value := v })
    ∧ (∀ (ε : Type) (variant : Except ε (String × Value)) (ntv : Value → Except ε Value)
          (e : ε),
        variant = .error e → visitEnumTagged variant ntv = .error e)
    ∧ (∀ (ε : Type) (variant : Except ε (String × Value)) (ntv : Value → Except ε Value)
          (t : String) (c : Value) (e : ε),
        variant = .ok (t, c) → ntv c = .error e →
        visitEnumTagged variant ntv = .error e) := by
  refine ⟨fun tag value => rfl, fun s => rfl, fun xs => rfl, fun kvs => rfl, ?_, ?_, ?_⟩
  · intro ε variant ntv t c v h1 h2
    subst h1
    show ntv c >>= (fun value => Except.ok (TaggedValue.mk (Tag.new t) value))
      = Except.ok (TaggedValue.mk (Tag.new t) v)
    rw [h2]
    rfl
  · intro ε variant ntv e h1
    subst h1
    rfl
  · intro ε variant ntv t c e h1 h2
    subst h1
    show ntv c >>= (fun value => Except.ok (TaggedValue.mk (Tag.new t) value))
      = Except.error e
    rw [h2]
    rfl

/-- Witness for C5: the concrete pipeline at a tagged scalar, and the
generic enum body at a failing variant extraction. -/
theorem taggedValue_deserialize_enum_mode_witness :
    TaggedValue.deserializeValue (.tagged (Tag.new "!Thing") (.scalar "x"))
      = .ok { tag := Tag.new "Thing", value := Value.scalar "x" }
    ∧ visitEnumTagged (Except.error (DeError.custom "boom"))
        (fun v => (Except.ok v : Except DeError Value))
      = Except.error (DeError.custom "boom")
    ∧ visitEnumTagged (Except.ok ("Thing", Value.scalar "x"))
        (fun v => (Except.ok v : Except DeError Value))
      = Except.ok { tag := Tag.new "Thing", value := Value.scalar "x" } := by
  refine ⟨?_, ?_, ?_⟩
  · exact (taggedValue_deserialize_enum_mode).1 (Tag.new "!Thing") (.scalar "x")
  · exact (taggedValue_deserialize_enum_mode).2.2.2.2.2.1 DeError
      (Except.error (DeError.custom "boom")) (fun v => Except.ok v)
      (DeError.custom "boom") rfl
  · exact (taggedValue_deserialize_enum_mode).2.2.2.2.1 DeError
      (Except.ok ("Thing", Value.scalar "x")) (fun v => Except.ok v) "Thing"
      (Value.scalar "x") (Value.scalar "x") rfl rfl

/-- Witness for C3: the collecting sink records exactly one entry keyed
`"!Thing"`, and a sink whose map-start fails propagates its error. -/
theorem taggedValue_serialize_one_entry_witness :
    (TaggedValue.mk (Tag.new "Thing") (Value.scalar "x")).serialize (collectSerializer DeError)
      = .ok [("!Thing", Value.scalar "x")]
    ∧ (MapSerializer.mk (fun _ => (Except.error "boom" : Except String Unit))
        (fun _ _ _ => Except.ok ()) (fun _ => (Except.ok () : Except String Unit))).serializeMap
        (some 1) = Except.error "boom"
    ∧ (TaggedValue.mk (Tag.new "Thing") (Value.scalar "x")).serialize
        (MapSerializer.mk (fun _ => (Except.error "boom" : Except String Unit))
          (fun _ _ _ => Except.ok ()) (fun _ => Except.ok ()))
      = Except.error "boom" := by
  refine ⟨?_, rfl, ?_⟩
  · exact (taggedValue_serialize_one_entry).1 DeError
      (TaggedValue.mk (Tag.new "Thing") (Value.scalar "x"))
  · exact (taggedValue_serialize_one_entry).2.1 Unit Unit String
      (MapSerializer.mk (fun _ => Except.error "boom")
        (fun _ _ _ => Except.ok ()) (fun _ => Except.ok ()))
      (TaggedValue.mk (Tag.new "Thing") (Value.scalar "x")) "boom" rfl
